import Mathlib

/-!
Shallow embedding of the Rust-Metronome application (src/main.rs) and proofs
about its update logic, subscription derivation, countdown timer and playback
worker. Machine integers (u32) are modelled as Nat; the f64 arithmetic of the
beat period is modelled exactly in ℚ; fallible operations (unwrap of an Option
or of a Result) are modelled with Option, where `none` stands for the panic.
-/

/-- The Subdivision enum from src/main.rs. -/
inductive Subdivision
  | Quarter
  | Eighth
deriving DecidableEq, Repr

/-- The Timer struct: countdown minutes and seconds (u32 fields as Nat). -/
structure Timer where
  mins : Nat
  secs : Nat
deriving DecidableEq, Repr

/-- The Default impl for Timer: 2 minutes 30 seconds. -/
def Timer.default : Timer := { mins := 2, secs := 30 }

/-- The MetronomeState enum. -/
inductive MetronomeState
  | Stopped
  | Play
deriving DecidableEq, Repr

/-- The Message enum: UI and timer events consumed by Metronome::update. -/
inductive Message
  | Toggle
  | Beat
  | IncrementBPM
  | DecrementBPM
  | SlideChangeBPM (bpm : Nat)
  | ChangeSubdivision (sd : Subdivision)
  | ToggleQuack (should_quack : Bool)
  | Tick
  | ToggleTimer (toggle_timer : Bool)
deriving DecidableEq, Repr

/-- The Beat enum: the events sent over the mpsc channel to player_thread. -/
inductive Beat
  | Beat
  | Quack
deriving DecidableEq, Repr

/-- The Metronome application state. The player_thread field of the Rust
struct is a channel Sender and is not a state value; sends on that channel
appear as the `sent` output of the update function below. -/
structure Metronome where
  value : Nat
  state : MetronomeState
  subdivision : Option Subdivision
  is_set_to_quack : Bool
  is_timer_on : Bool
  timer : Timer
deriving DecidableEq, Repr

/-- The MetronomeSettings struct (application flags). -/
structure MetronomeSettings where
  value : Nat
  is_set_to_quack : Bool
  is_timer_on : Bool
  subdivision : Option Subdivision
  timer : Timer

/-- The Default impl for MetronomeSettings. -/
def MetronomeSettings.default : MetronomeSettings :=
  { value := 120
    is_set_to_quack := false
    is_timer_on := false
    subdivision := some Subdivision.Quarter
    timer := Timer.default }

/-- Metronome::new(flags): the initial state. The returned Command is
Command::none, so no message is dispatched at construction. -/
def Metronome.new (flags : MetronomeSettings) : Metronome :=
  { value := flags.value
    state := MetronomeState.Stopped
    subdivision := flags.subdivision
    is_set_to_quack := flags.is_set_to_quack
    is_timer_on := flags.is_timer_on
    timer := flags.timer }

/-- main() runs the application with Settings::default(), whose flags are
MetronomeSettings::default(). -/
def Metronome.initial : Metronome := Metronome.new MetronomeSettings.default

/-- The subdivision factor computed in Metronome::subscription
(f64 literals 1. and 2., modelled in ℚ). -/
def subdivision_factor : Subdivision → ℚ
  | Subdivision.Quarter => 1
  | Subdivision.Eighth => 2

/-- Metronome::subscription. The f64 period arithmetic is modelled exactly in
ℚ. The result is `none` when self.subdivision.unwrap() would panic (the unwrap
runs before the state match, in every state). Otherwise the list holds one
(period in seconds, message) pair per active time::every subscription; the
empty list models Subscription::none() in the Stopped state. -/
def Metronome.subscription (s : Metronome) : Option (List (ℚ × Message)) :=
  match s.subdivision with
  | none => none
  | some sd =>
    let factor := subdivision_factor sd
    let click_sub : ℚ × Message := (60 / (s.value : ℚ) / factor, Message.Beat)
    let timer_sub : ℚ × Message := (1, Message.Tick)
    let subscriptions := [click_sub] ++ (if s.is_timer_on then [timer_sub] else [])
    some (match s.state with
          | MetronomeState.Play => subscriptions
          | MetronomeState.Stopped => [])

/-- update_timer from src/main.rs. The u32 subtractions are modelled with Nat
subtraction, which truncates at 0 where the u32 arithmetic would panic on
underflow; update_timer_checked below makes the underflow explicit. -/
def update_timer (t : Timer) : Timer :=
  if t.secs = 0 ∧ t.mins > 0 then { mins := t.mins - 1, secs := 59 }
  else { mins := t.mins, secs := t.secs - 1 }

/-- Checked u32 subtraction: `none` models the panic of Rust debug-mode
arithmetic on underflow. -/
def checked_sub (a b : Nat) : Option Nat := if b ≤ a then some (a - b) else none

/-- update_timer with each u32 subtraction modelled as checked_sub: the result
is `none` exactly when one of the `-= 1` operations underflows. -/
def update_timer_checked (t : Timer) : Option Timer :=
  if t.secs = 0 ∧ t.mins > 0 then
    (checked_sub t.mins 1).map fun m => { mins := m, secs := 59 }
  else
    (checked_sub t.secs 1).map fun s2 => { mins := t.mins, secs := s2 }

/-- The result of one Metronome::update call: the new state, the Beats sent on
the player_thread channel during the call, and the message (if any) dispatched
by the returned Command (Command::none dispatches nothing; the only other
Command in the source is Command::perform mapping to Message::Beat). -/
structure UpdateResult where
  st : Metronome
  sent : List Beat
  cmd : Option Message
deriving DecidableEq, Repr

/-- Metronome::update from src/main.rs, one branch per Message variant. -/
def Metronome.update (s : Metronome) : Message → UpdateResult
  | Message.IncrementBPM =>
    { st := { s with value := s.value + 1 }, sent := [], cmd := none }
  | Message.DecrementBPM =>
    { st := { s with value := s.value - 1 }, sent := [], cmd := none }
  | Message.Toggle =>
    if s.state = MetronomeState.Stopped then
      { st := { s with state := MetronomeState.Play }, sent := [],
        cmd := some Message.Beat }
    else
      { st := { s with state := MetronomeState.Stopped }, sent := [], cmd := none }
  | Message.Beat =>
    match s.state with
    | MetronomeState.Play =>
      if s.is_set_to_quack then { st := s, sent := [Beat.Quack], cmd := none }
      else { st := s, sent := [Beat.Beat], cmd := none }
    | MetronomeState.Stopped => { st := s, sent := [], cmd := none }
  | Message.SlideChangeBPM bpm =>
    { st := { s with value := bpm }, sent := [], cmd := none }
  | Message.ChangeSubdivision sd =>
    { st := { s with subdivision := some sd }, sent := [], cmd := none }
  | Message.ToggleQuack should_quack =>
    { st := { s with is_set_to_quack := should_quack }, sent := [], cmd := none }
  | Message.Tick =>
    if s.timer.mins * 60 + s.timer.secs > 0 then
      { st := { s with timer := update_timer s.timer }, sent := [], cmd := none }
    else { st := s, sent := [], cmd := none }
  | Message.ToggleTimer toggle_timer =>
    { st := { s with is_timer_on := toggle_timer }, sent := [], cmd := none }

/-- Process a queue of messages through Metronome::update, collecting the
Beats sent to player_thread. A message dispatched by a Command is processed
right after the update that issued it: the only Command the source ever issues
is the Message::Beat dispatched on Toggle-into-Play, and the Beat handler
itself issues no Command, so one extra update step is exact. -/
def Metronome.run (s : Metronome) : List Message → Metronome × List Beat
  | [] => (s, [])
  | m :: rest =>
    let r := Metronome.update s m
    match r.cmd with
    | some m2 =>
      let r2 := Metronome.update r.st m2
      let p := Metronome.run r2.st rest
      (p.1, r.sent ++ r2.sent ++ p.2)
    | none =>
      let p := Metronome.run r.st rest
      (p.1, r.sent ++ p.2)

/-- The keys inserted into the sound map by read_sounds_into_buffer. -/
def sound_keys : List String := ["click", "quack"]

/-- The key player_thread looks up in the sound map for each Beat event. -/
def beat_key : Beat → String
  | Beat.Beat => "click"
  | Beat.Quack => "quack"

/-- player_thread from src/main.rs: for each received Beat the clip lookup
(HashMap::get, unwrapped) and the play call (stream_handle.play_raw, whose
Result is unwrapped) are performed. Each event carries the outcome the device
gives its play call (true = Ok). Returns how many events the worker consumes
before exiting: a missing key or an Err outcome makes an unwrap panic, ending
the receive loop before the remaining events are consumed. -/
def player_run : List (Beat × Bool) → Nat
  | [] => 0
  | (b, ok) :: rest =>
    if beat_key b ∈ sound_keys then
      if ok then 1 + player_run rest
      else 1
    else 1

/-- The Slider in Metronome::view is constructed with the range 40..=200, so
this is the only range of values a SlideChangeBPM message can carry in the UI. -/
def slider_range : Nat × Nat := (40, 200)

/-- One Tick message applied to the state. -/
def tick_step (s : Metronome) : Metronome := (Metronome.update s Message.Tick).st

/-- n Tick messages applied to the state. -/
def tickRun : Nat → Metronome → Metronome
  | 0, s => s
  | n + 1, s => tickRun n (tick_step s)

/-- The effect of n Tick messages on the timer field alone. -/
def timerTicks : Nat → Timer → Timer
  | 0, t => t
  | n + 1, t => timerTicks n (if t.mins * 60 + t.secs > 0 then update_timer t else t)

/-- The states reachable from the initial state under any message sequence. -/
inductive Reachable : Metronome → Prop
  | init : Reachable Metronome.initial
  | step (s : Metronome) (m : Message) : Reachable s → Reachable (Metronome.update s m).st

/-- Claim C1: for every tempo in [40,200] and every subdivision, the playing
subscription schedules beats with period 60 / tempo / factor seconds where the
factor is 1 for Quarter and 2 for Eighth; tempo 120 with Quarter gives a period
of 1/2 second and tempo 120 with Eighth gives 1/4 second. -/
theorem period_formula_C1 (s : Metronome) (sd : Subdivision)
    (h40 : 40 ≤ s.value) (h200 : s.value ≤ 200)
    (hsd : s.subdivision = some sd) (hp : s.state = MetronomeState.Play) :
    Metronome.subscription s =
      some ((60 / (s.value : ℚ) / subdivision_factor sd, Message.Beat)
            :: (if s.is_timer_on then [((1 : ℚ), Message.Tick)] else [])) ∧
    (subdivision_factor sd = 1 ∨ subdivision_factor sd = 2) ∧
    (s.value = 120 →
      (sd = Subdivision.Quarter → 60 / (s.value : ℚ) / subdivision_factor sd = 1 / 2) ∧
      (sd = Subdivision.Eighth → 60 / (s.value : ℚ) / subdivision_factor sd = 1 / 4)) := by
  refine ⟨?_, ?_, ?_⟩
  · simp [Metronome.subscription, hsd, hp]
  · cases sd <;> simp [subdivision_factor]
  · intro h120
    constructor <;> rintro rfl <;> rw [h120] <;> norm_num [subdivision_factor]

/-- Claim C1 witness: the concrete instance tempo 120, Quarter, Playing. -/
theorem period_formula_C1_witness :
    Metronome.subscription
      { value := 120, state := MetronomeState.Play,
        subdivision := some Subdivision.Quarter, is_set_to_quack := false,
        is_timer_on := false, timer := Timer.default } =
      some [((1 : ℚ) / 2, Message.Beat)] := by
  have h := period_formula_C1
    { value := 120, state := MetronomeState.Play,
      subdivision := some Subdivision.Quarter, is_set_to_quack := false,
      is_timer_on := false, timer := Timer.default }
    Subdivision.Quarter (by norm_num) (by norm_num) rfl rfl
  rw [h.1]
  norm_num [subdivision_factor]

/-- Claim C2 fails on the code: the IncrementBPM and DecrementBPM handlers are
unguarded, so decrementing at tempo 40 yields 39 and incrementing at tempo 200
yields 201 instead of clamping at the bounds. -/
theorem tempo_unclamped_C2 :
    (Metronome.update { Metronome.initial with value := 40 }
        Message.DecrementBPM).st.value = 39 ∧
    (Metronome.update { Metronome.initial with value := 200 }
        Message.IncrementBPM).st.value = 201 :=
  ⟨rfl, rfl⟩

/-- Claim C7 fails on the code: player_thread unwraps the Result of each play
call, so after a single failing play (second component false) the worker
consumes no further events: of two received events only the first is consumed. -/
theorem play_failure_kills_worker_C7 :
    player_run [(Beat.Beat, false), (Beat.Beat, true)] = 1 ∧
    [(Beat.Beat, false), (Beat.Beat, true)].length = 2 :=
  ⟨rfl, rfl⟩

/-- Claim C8 counterexample: the SlideChangeBPM handler performs no range
validation, so the out-of-range input 500 is stored rather than rejected, and
the prior tempo 120 is not retained. -/
theorem tempo_set_unvalidated_C8_cex :
    Metronome.initial.value = 120 ∧
    (Metronome.update Metronome.initial (Message.SlideChangeBPM 500)).st.value = 500 :=
  ⟨rfl, rfl⟩

/-- Claim C8 amended: the SlideChangeBPM handler stores any received value
unconditionally; out-of-range values are excluded only upstream by the slider
widget, built with range 40..=200, so every value the slider can deliver keeps
the tempo within [40,200]. -/
theorem tempo_set_slider_bounded_C8 (s : Metronome) (bpm : Nat)
    (hlo : slider_range.1 ≤ bpm) (hhi : bpm ≤ slider_range.2) :
    (Metronome.update s (Message.SlideChangeBPM bpm)).st.value = bpm ∧
    40 ≤ (Metronome.update s (Message.SlideChangeBPM bpm)).st.value ∧
    (Metronome.update s (Message.SlideChangeBPM bpm)).st.value ≤ 200 :=
  ⟨rfl, hlo, hhi⟩

/-- Claim C8 amended, witness at the in-range slider value 150. -/
theorem tempo_set_slider_bounded_C8_witness :
    (Metronome.update Metronome.initial (Message.SlideChangeBPM 150)).st.value = 150 ∧
    40 ≤ (Metronome.update Metronome.initial (Message.SlideChangeBPM 150)).st.value ∧
    (Metronome.update Metronome.initial (Message.SlideChangeBPM 150)).st.value ≤ 200 :=
  tempo_set_slider_bounded_C8 Metronome.initial 150 (by decide) (by decide)

/-- Every handler other than Toggle leaves the playback state unchanged and
returns Command::none. -/
theorem update_preserves_state (s : Metronome) (m : Message) (hm : m ≠ Message.Toggle) :
    (Metronome.update s m).st.state = s.state ∧ (Metronome.update s m).cmd = none := by
  cases m with
  | Toggle => exact absurd rfl hm
  | Beat =>
    cases hq : s.state <;> cases hb : s.is_set_to_quack <;> simp [Metronome.update, hq, hb]
  | Tick =>
    by_cases hg : s.timer.mins * 60 + s.timer.secs > 0 <;> simp [Metronome.update, hg]
  | IncrementBPM => exact ⟨rfl, rfl⟩
  | DecrementBPM => exact ⟨rfl, rfl⟩
  | SlideChangeBPM bpm => exact ⟨rfl, rfl⟩
  | ChangeSubdivision sd => exact ⟨rfl, rfl⟩
  | ToggleQuack b => exact ⟨rfl, rfl⟩
  | ToggleTimer b => exact ⟨rfl, rfl⟩

/-- In the Stopped state no handler sends anything on the player channel: in
particular the Beat handler hits its Stopped arm and sends no Beat. -/
theorem update_sent_eq_nil_of_stopped (s : Metronome) (m : Message)
    (hs : s.state = MetronomeState.Stopped) : (Metronome.update s m).sent = [] := by
  cases m with
  | Tick => by_cases hg : s.timer.mins * 60 + s.timer.secs > 0 <;> simp [Metronome.update, hg]
  | Toggle => simp [Metronome.update, hs]
  | Beat => simp [Metronome.update, hs]
  | IncrementBPM => rfl
  | DecrementBPM => rfl
  | SlideChangeBPM bpm => rfl
  | ChangeSubdivision sd => rfl
  | ToggleQuack b => rfl
  | ToggleTimer b => rfl

/-- While the state is Stopped, a Toggle-free message sequence sends nothing
to the player channel. -/
theorem run_sent_nil_of_stopped (s : Metronome) (msgs : List Message)
    (hs : s.state = MetronomeState.Stopped) (hm : Message.Toggle ∉ msgs) :
    (Metronome.run s msgs).2 = [] := by
  induction msgs generalizing s with
  | nil => rfl
  | cons m rest ih =>
    have hm1 : m ≠ Message.Toggle := fun h => hm (by simp [h])
    have hmr : Message.Toggle ∉ rest := fun h => hm (List.mem_cons_of_mem _ h)
    have hp := update_preserves_state s m hm1
    have hsent := update_sent_eq_nil_of_stopped s m hs
    simp only [Metronome.run]
    rw [hp.2]
    simp [hsent]
    exact ih (Metronome.update s m).st (hp.1.trans hs) hmr

/-- The Tick handler changes only the timer field, through the guarded call to
update_timer. -/
theorem tick_step_timer (s : Metronome) :
    (tick_step s).timer =
      if s.timer.mins * 60 + s.timer.secs > 0 then update_timer s.timer else s.timer := by
  by_cases hg : s.timer.mins * 60 + s.timer.secs > 0 <;> simp [tick_step, Metronome.update, hg]

/-- n Tick messages act on the timer field as timerTicks. -/
theorem tickRun_timer (n : Nat) (s : Metronome) :
    (tickRun n s).timer = timerTicks n s.timer := by
  induction n generalizing s with
  | zero => rfl
  | succ n ih =>
    rw [tickRun, ih (tick_step s), tick_step_timer s]
    rfl

/-- A countdown at 0:00 is left at 0:00 by any number of ticks. -/
theorem timerTicks_zero (n : Nat) : timerTicks n (Timer.mk 0 0) = Timer.mk 0 0 := by
  induction n with
  | zero => rfl
  | succ n ih => simpa [timerTicks] using ih

/-- Every handler either leaves the subdivision field unchanged or stores a
some value (ChangeSubdivision). -/
theorem update_subdivision (s : Metronome) (m : Message) :
    (Metronome.update s m).st.subdivision = s.subdivision ∨
    ∃ sd, (Metronome.update s m).st.subdivision = some sd := by
  cases m with
  | ChangeSubdivision sd => exact Or.inr ⟨sd, rfl⟩
  | Toggle =>
    left
    by_cases ht : s.state = MetronomeState.Stopped <;> simp [Metronome.update, ht]
  | Beat =>
    left
    cases hq : s.state <;> cases hb : s.is_set_to_quack <;> simp [Metronome.update, hq, hb]
  | Tick =>
    left
    by_cases hg : s.timer.mins * 60 + s.timer.secs > 0 <;> simp [Metronome.update, hg]
  | IncrementBPM => exact Or.inl rfl
  | DecrementBPM => exact Or.inl rfl
  | SlideChangeBPM bpm => exact Or.inl rfl
  | ToggleQuack b => exact Or.inl rfl
  | ToggleTimer b => exact Or.inl rfl

/-- Claim C3: once the Stop transition is processed the state is Stopped and,
over any subsequent message sequence that does not restart playback, no Beat
is ever sent to the playback worker, including for a Beat message that was
already in flight; moreover the subscription of the stopped state is empty,
so no further timer firing is scheduled. -/
theorem stop_halts_beats_C3 (s : Metronome) (hp : s.state = MetronomeState.Play)
    (msgs : List Message) (hm : Message.Toggle ∉ msgs) :
    (Metronome.update s Message.Toggle).st.state = MetronomeState.Stopped ∧
    (Metronome.run (Metronome.update s Message.Toggle).st msgs).2 = [] ∧
    (∀ sd, s.subdivision = some sd →
      Metronome.subscription (Metronome.update s Message.Toggle).st = some []) := by
  have hstop : (Metronome.update s Message.Toggle).st.state = MetronomeState.Stopped := by
    simp [Metronome.update, hp]
  refine ⟨hstop, run_sent_nil_of_stopped _ msgs hstop hm, ?_⟩
  intro sd hsd
  have hsub : (Metronome.update s Message.Toggle).st.subdivision = some sd := by
    simp [Metronome.update, hp, hsd]
  simp [Metronome.subscription, hsub, hstop]

/-- Claim C3 witness: stopping from Play, then an in-flight Beat, a Tick and
another Beat produce no sends. -/
theorem stop_halts_beats_C3_witness :
    (Metronome.run
      (Metronome.update { Metronome.initial with state := MetronomeState.Play }
        Message.Toggle).st
      [Message.Beat, Message.Tick, Message.Beat]).2 = [] := by
  have h := stop_halts_beats_C3 { Metronome.initial with state := MetronomeState.Play } rfl
    [Message.Beat, Message.Tick, Message.Beat] (by decide)
  exact h.2.1

/-- Claim C4: the clip kind of a beat is read from the quack flag at fire
time: in any playing state a Beat sends the kind given by the current flag,
and the beat right after a ToggleQuack sends the newly selected kind. -/
theorem beat_kind_at_fire_C4 (s : Metronome) (hp : s.state = MetronomeState.Play) (b : Bool) :
    (Metronome.update s Message.Beat).sent =
      [if s.is_set_to_quack then Beat.Quack else Beat.Beat] ∧
    (Metronome.update s (Message.ToggleQuack b)).st.state = MetronomeState.Play ∧
    (Metronome.update (Metronome.update s (Message.ToggleQuack b)).st Message.Beat).sent =
      [if b then Beat.Quack else Beat.Beat] := by
  refine ⟨?_, ?_, ?_⟩
  · cases hq : s.is_set_to_quack <;> simp [Metronome.update, hp, hq]
  · simp [Metronome.update, hp]
  · cases b <;> simp [Metronome.update, hp]

/-- Claim C4 witness: toggling quack mode on while playing makes the very
next beat a Quack. -/
theorem beat_kind_at_fire_C4_witness :
    (Metronome.update
      (Metronome.update { Metronome.initial with state := MetronomeState.Play }
        (Message.ToggleQuack true)).st Message.Beat).sent = [Beat.Quack] := by
  have h := beat_kind_at_fire_C4 { Metronome.initial with state := MetronomeState.Play } rfl true
  simpa using h.2.2

/-- Claim C5: a countdown of 0:05 reaches exactly 0:00 after 5 ticks and
stays at 0:00 under every further tick (no wrap, no negative value); each
tick of a positive countdown decrements one second, borrowing from the
minutes when the seconds are 0. -/
theorem countdown_clamped_C5 (s : Metronome) (h : s.timer = Timer.mk 0 5) (n : Nat) :
    (tickRun 5 s).timer = Timer.mk 0 0 ∧
    (tickRun n (tickRun 5 s)).timer = Timer.mk 0 0 ∧
    (∀ t : Timer, t.secs = 0 → t.mins > 0 → update_timer t = Timer.mk (t.mins - 1) 59) ∧
    (∀ t : Timer, t.secs > 0 → update_timer t = Timer.mk t.mins (t.secs - 1)) := by
  have h5 : (tickRun 5 s).timer = Timer.mk 0 0 := by
    rw [tickRun_timer, h]
    rfl
  refine ⟨h5, ?_, ?_, ?_⟩
  · rw [tickRun_timer, h5]
    exact timerTicks_zero n
  · intro t h0 hmins
    simp [update_timer, h0, hmins]
  · intro t hpos
    have hcond : ¬(t.secs = 0 ∧ t.mins > 0) := fun hc => by omega
    simp [update_timer, hcond]

/-- Claim C5 witness: the concrete countdown run from 0:05, with 3 extra
ticks after reaching 0:00. -/
theorem countdown_clamped_C5_witness :
    (tickRun 5 { Metronome.initial with timer := Timer.mk 0 5 }).timer = Timer.mk 0 0 ∧
    (tickRun 3 (tickRun 5 { Metronome.initial with timer := Timer.mk 0 5 })).timer =
      Timer.mk 0 0 := by
  have h := countdown_clamped_C5 { Metronome.initial with timer := Timer.mk 0 5 } rfl 3
  exact ⟨h.1, h.2.1⟩

/-- Claim C6: a Toggle in the Stopped state switches to Play and dispatches an
immediate Beat message through the returned Command; processing that queue
sends exactly one clip at once, and the new state subscribes to the periodic
beat cadence with period 60 / tempo / factor. -/
theorem immediate_first_beat_C6 (s : Metronome) (hs : s.state = MetronomeState.Stopped)
    (sd : Subdivision) (hsd : s.subdivision = some sd) :
    (Metronome.update s Message.Toggle).st.state = MetronomeState.Play ∧
    (Metronome.update s Message.Toggle).cmd = some Message.Beat ∧
    (Metronome.run s [Message.Toggle]).2 =
      [if s.is_set_to_quack then Beat.Quack else Beat.Beat] ∧
    Metronome.subscription (Metronome.run s [Message.Toggle]).1 =
      some ((60 / (s.value : ℚ) / subdivision_factor sd, Message.Beat)
            :: (if s.is_timer_on then [((1 : ℚ), Message.Tick)] else [])) := by
  refine ⟨?_, ?_, ?_, ?_⟩ <;>
    cases hq : s.is_set_to_quack <;>
      simp [Metronome.update, Metronome.run, Metronome.subscription, hs, hsd, hq]

/-- Claim C6 witness: toggling the initial (stopped) state plays one
immediate click. -/
theorem immediate_first_beat_C6_witness :
    (Metronome.run Metronome.initial [Message.Toggle]).2 = [Beat.Beat] := by
  have h := immediate_first_beat_C6 Metronome.initial rfl Subdivision.Quarter rfl
  simpa [Metronome.initial, Metronome.new, MetronomeSettings.default] using h.2.2.1

/-- Claim C9: in every state reachable from the initial state the subdivision
field is a some value (it starts as some Quarter and every handler preserves
some-ness), so the unwrap performed at the start of Metronome::subscription,
which runs in every state including Stopped, does not panic. -/
theorem subdivision_unwrap_safe_C9 (s : Metronome) (h : Reachable s) :
    s.subdivision.isSome ∧ (Metronome.subscription s).isSome ∧
    Metronome.initial.subdivision = some Subdivision.Quarter := by
  have hsome : s.subdivision.isSome := by
    induction h with
    | init => rfl
    | step s' m hs ih =>
      rcases update_subdivision s' m with heq | ⟨sd, heq⟩
      · rw [heq]; exact ih
      · rw [heq]; rfl
  refine ⟨hsome, ?_, rfl⟩
  obtain ⟨sd, hsd⟩ := Option.isSome_iff_exists.mp hsome
  simp [Metronome.subscription, hsd]

/-- Claim C9 witness: the subscription of the initial state is defined (the
unwrap succeeds). -/
theorem subdivision_unwrap_safe_C9_witness :
    (Metronome.subscription Metronome.initial).isSome := by
  have h := subdivision_unwrap_safe_C9 Metronome.initial Reachable.init
  exact h.2.1

/-- Claim C10: under the Tick guard mins * 60 + secs > 0 the u32 subtractions
in update_timer cannot underflow (the checked version agrees with the Nat
version), the output seconds stay in [0,59] for input seconds in [0,59], and
the Tick handler invokes update_timer only under that guard. -/
theorem update_timer_no_underflow_C10 (t : Timer)
    (hpos : t.mins * 60 + t.secs > 0) (h59 : t.secs ≤ 59) :
    update_timer_checked t = some (update_timer t) ∧
    (update_timer t).secs ≤ 59 ∧
    (∀ s : Metronome, (Metronome.update s Message.Tick).st.timer =
      if s.timer.mins * 60 + s.timer.secs > 0 then update_timer s.timer else s.timer) := by
  refine ⟨?_, ?_, ?_⟩
  · by_cases h0 : t.secs = 0
    · have hmins : 0 < t.mins := by omega
      have hne : ¬t.mins = 0 := by omega
      simp [update_timer_checked, update_timer, checked_sub, h0, hmins, hne]
    · have hcond : ¬(t.secs = 0 ∧ t.mins > 0) := fun hc => h0 hc.1
      have h1 : 1 ≤ t.secs := by omega
      simp [update_timer_checked, update_timer, checked_sub, hcond, h1]
  · by_cases h0 : t.secs = 0
    · have hmins : t.mins > 0 := by omega
      simp [update_timer, h0, hmins]
    · have hcond : ¬(t.secs = 0 ∧ t.mins > 0) := fun hc => h0 hc.1
      simp [update_timer, hcond]
      omega
  · intro s
    by_cases hg : s.timer.mins * 60 + s.timer.secs > 0 <;> simp [Metronome.update, hg]

/-- Claim C10 witness: the default countdown 2:30 satisfies the guard and the
checked update agrees with the unchecked one. -/
theorem update_timer_no_underflow_C10_witness :
    update_timer_checked (Timer.mk 2 30) = some (update_timer (Timer.mk 2 30)) ∧
    (update_timer (Timer.mk 2 30)).secs ≤ 59 := by
  have h := update_timer_no_underflow_C10 (Timer.mk 2 30) (by decide) (by decide)
  exact ⟨h.1, h.2.1⟩
